import Mathlib

/-!
Verification development for the FictionBook pipeline (src/librarydata.py).

The pipeline fetches book metadata over HTTP, flattens each raw record into a
four-field row, builds a dataframe, serializes it to CSV/JSON, bulk-replaces a
database table with it, and aggregates the rows for a count plot.

The Python code is embedded shallowly:
  * a dataframe cell is `Cell` (string, integer, or NaN);
  * a raw API record is `RawRecord`, a mapping with four optional keys;
  * `pd.DataFrame` built from a list of flat records is `DataFrame.ofRecords`,
    whose column list is collected from the record keys in first-appearance
    order (as pandas does for a list of dicts);
  * Python exceptions are the `PyExn` type, and fallible operations return
    `Except PyExn _`;
  * external effects (the HTTP response, the SQL engine, the database state,
    the CSV file) are passed explicitly as values.
-/

/-- A dataframe cell: a string, an integer, or pandas' NaN placeholder for a
missing value. -/
inductive Cell where
  | s (v : String)
  | i (v : Int)
  | nan
  deriving DecidableEq, Repr

/-- A raw record from the search API: an untyped mapping where each of the four
projected keys may be absent (`none`).  `title`, `first_publish_year` and
`ratings_sortable` carry arbitrary scalar values; `author_name` is a list of
strings (the only shape `", ".join` accepts). -/
structure RawRecord where
  title : Option Cell
  author_name : Option (List String)
  first_publish_year : Option Cell
  ratings_sortable : Option Cell
  deriving DecidableEq, Repr

/-- A tabular structure: named columns plus rows of cells, one cell per column
position. -/
structure DataFrame where
  columns : List String
  rows : List (List Cell)
  deriving DecidableEq, Repr

/-- Python exceptions that the embedded code can raise. -/
inductive PyExn where
  /-- `requests.RequestException`: transport errors and (via
  `raise_for_status`) HTTP-status errors. -/
  | requestException (msg : String)
  /-- `AttributeError`, e.g. calling a method on `None` or on a non-dict. -/
  | attributeError (msg : String)
  /-- `ValueError`. -/
  | valueError (msg : String)
  /-- `pandas.errors.EmptyDataError` from `read_csv`. -/
  | emptyDataError (msg : String)
  deriving DecidableEq, Repr

/-- Append an element to an accumulator unless it is already present; the fold
step pandas uses to collect column names in first-appearance order. -/
def addDistinct {α : Type} [DecidableEq α] (acc : List α) (x : α) : List α :=
  if x ∈ acc then acc else acc ++ [x]

/-- Column names of `pd.DataFrame(list_of_dicts)`: the union of the records'
keys in order of first appearance. -/
def collectCols (recs : List (List (String × Cell))) : List String :=
  recs.foldl (fun acc rec => (rec.map Prod.fst).foldl addDistinct acc) []

/-- `pd.DataFrame(list_of_dicts)`: columns are the collected keys; each row
holds, for every column, the record's value under that key (NaN when the key
is missing from that record). -/
def DataFrame.ofRecords (recs : List (List (String × Cell))) : DataFrame :=
  { columns := collectCols recs,
    rows := recs.map (fun rec =>
      (collectCols recs).map (fun c => ((rec.lookup c).getD Cell.nan))) }

/-- The flattened dict built for one raw record in `BookCleaner.clean_data`
(src/librarydata.py lines 38-43): `item.get("title", "")`,
`", ".join(item.get("author_name", []))`, `item.get("first_publish_year", "")`,
`item.get("ratings_sortable", "")`. -/
def flattenRecord (item : RawRecord) : List (String × Cell) :=
  [("title", item.title.getD (Cell.s "")),
   ("author_name", Cell.s (String.intercalate ", " (item.author_name.getD []))),
   ("first_publish_year", item.first_publish_year.getD (Cell.s "")),
   ("ratings", item.ratings_sortable.getD (Cell.s ""))]

/-- The dataframe produced by `BookCleaner.clean_data`
(src/librarydata.py lines 35-46): flatten every raw record, then
`pd.DataFrame(cleaned_data)`. -/
def clean_data (data : List RawRecord) : DataFrame :=
  DataFrame.ofRecords (data.map flattenRecord)

/-- The four column names of every cleaned row. -/
def fourCols : List String := ["title", "author_name", "first_publish_year", "ratings"]

-- Basic lemmas about the column-collection fold.

lemma foldl_addDistinct_mem {α : Type} [DecidableEq α] (l acc : List α) (v : α) :
    v ∈ l.foldl addDistinct acc ↔ v ∈ acc ∨ v ∈ l := by
  induction l generalizing acc with
  | nil => simp
  | cons x xs ih =>
    rw [List.foldl_cons, ih]
    unfold addDistinct
    by_cases hx : x ∈ acc
    · simp only [if_pos hx, List.mem_cons]
      constructor
      · rintro (h | h)
        · exact Or.inl h
        · exact Or.inr (Or.inr h)
      · rintro (h | h | h)
        · exact Or.inl h
        · exact Or.inl (h ▸ hx)
        · exact Or.inr h
    · simp only [if_neg hx, List.mem_append, List.mem_singleton, List.mem_cons]
      tauto

lemma foldl_addDistinct_nodup {α : Type} [DecidableEq α] (l : List α) :
    ∀ acc : List α, acc.Nodup → (l.foldl addDistinct acc).Nodup := by
  induction l with
  | nil => intro acc h; simpa using h
  | cons x xs ih =>
    intro acc h
    rw [List.foldl_cons]
    apply ih
    unfold addDistinct
    by_cases hx : x ∈ acc
    · simpa [if_pos hx] using h
    · rw [if_neg hx]
      refine List.Nodup.append h (List.nodup_singleton x) ?_
      intro a ha hax
      rw [List.mem_singleton] at hax
      exact hx (hax ▸ ha)

lemma foldl_addDistinct_stable {α : Type} [DecidableEq α] (l acc : List α)
    (h : ∀ k ∈ l, k ∈ acc) : l.foldl addDistinct acc = acc := by
  induction l with
  | nil => rfl
  | cons x xs ih =>
    rw [List.foldl_cons, addDistinct, if_pos (h x (List.mem_cons_self x xs))]
    exact ih fun k hk => h k (List.mem_cons_of_mem x hk)

lemma flattenRecord_keys (item : RawRecord) :
    (flattenRecord item).map Prod.fst = fourCols := rfl

lemma collectCols_stable (recs : List (List (String × Cell))) (acc : List String)
    (h : ∀ rec ∈ recs, ∀ k ∈ rec.map Prod.fst, k ∈ acc) :
    recs.foldl (fun a rec => (rec.map Prod.fst).foldl addDistinct a) acc = acc := by
  induction recs with
  | nil => rfl
  | cons r rs ih =>
    rw [List.foldl_cons,
      foldl_addDistinct_stable _ _ (h r (List.mem_cons_self r rs))]
    exact ih fun rec hrec => h rec (List.mem_cons_of_mem r hrec)

lemma collectCols_flatten_cons (d : RawRecord) (ds : List RawRecord) :
    collectCols ((d :: ds).map flattenRecord) = fourCols := by
  rw [List.map_cons]
  unfold collectCols
  rw [List.foldl_cons, flattenRecord_keys]
  have hstep : fourCols.foldl addDistinct [] = fourCols := by decide
  rw [hstep]
  apply collectCols_stable
  intro rec hrec k hk
  obtain ⟨d', _, rfl⟩ := List.mem_map.mp hrec
  rwa [flattenRecord_keys d'] at hk

lemma clean_data_columns_cons (d : RawRecord) (ds : List RawRecord) :
    (clean_data (d :: ds)).columns = fourCols := by
  unfold clean_data DataFrame.ofRecords
  exact collectCols_flatten_cons d ds

/-- Render a cell as the text pandas `to_csv` writes for it (NaN and the empty
string both serialize to an empty field). -/
def Cell.csvText : Cell → String
  | Cell.s v => v
  | Cell.i v => toString v
  | Cell.nan => ""

/-- `DataFrame.to_csv(filename, index=False)` at the record level: the header
record of column names followed by one record per row.  The RFC-4180 text
encoding/decoding of these records (quoting of separators and newlines) is
pandas' writer/reader pair and is modelled as the identity on records. -/
def DataFrame.to_csv (df : DataFrame) : List (List String) :=
  df.columns :: df.rows.map (fun r => r.map Cell.csvText)

/-- Type inference a CSV reader applies to a field: empty text becomes NaN,
integer text becomes an integer, anything else stays text (types may widen
relative to the written frame). -/
def parseCsvCell (f : String) : Cell :=
  if f = "" then Cell.nan
  else match f.toInt? with
    | some n => Cell.i n
    | none => Cell.s f

/-- `pd.read_csv` at the record level: blank lines are skipped; if nothing is
left the reader raises `EmptyDataError` ("No columns to parse from file");
otherwise the first record is the header and the rest are the data rows. -/
def read_csv (lines : List (List String)) : Except PyExn DataFrame :=
  match lines.filter (fun r => decide (r ≠ [] ∧ r ≠ [""])) with
  | [] => Except.error (PyExn.emptyDataError "No columns to parse from file")
  | header :: rest =>
      Except.ok { columns := header, rows := rest.map (fun r => r.map parseCsvCell) }

/-- `DataFrame.to_json(filename, orient="records")`: a list of per-row objects
pairing each column name with the row's cell. -/
def DataFrame.to_json (df : DataFrame) : List (List (String × Cell)) :=
  df.rows.map (fun r => df.columns.zip r)

/-- `BookCleaner` (src/librarydata.py lines 30-54): holds the raw records and
the cleaned dataframe, which is `None` until `clean_data` has run. -/
structure BookCleaner where
  data : List RawRecord
  cleaned_data : Option DataFrame
  deriving DecidableEq, Repr

/-- `BookCleaner.__init__`: stores the raw records; `cleaned_data = None`. -/
def BookCleaner.init (list_of_json_data : List RawRecord) : BookCleaner :=
  { data := list_of_json_data, cleaned_data := none }

/-- `BookCleaner.clean_data` as a method: builds the dataframe from the stored
raw records, stores it in `self.cleaned_data`, and returns it (the updated
object models the mutation of `self`). -/
def BookCleaner.clean_data (c : BookCleaner) : BookCleaner × DataFrame :=
  ({ c with cleaned_data := some (DataFrame.ofRecords (c.data.map flattenRecord)) },
   DataFrame.ofRecords (c.data.map flattenRecord))

lemma cleanDataMethod_eq (c : BookCleaner) :
    (BookCleaner.clean_data c).2 = clean_data c.data := rfl

/-- `BookCleaner.save_data_into_csv`: `self.cleaned_data.to_csv(filename,
index=False)`.  When `cleaned_data` is `None` this is an `AttributeError`
(`None` has no `to_csv`); otherwise the written CSV document is returned. -/
def BookCleaner.save_data_into_csv (c : BookCleaner) :
    Except PyExn (List (List String)) :=
  match c.cleaned_data with
  | none => Except.error (PyExn.attributeError "NoneType object has no attribute to_csv")
  | some df => Except.ok df.to_csv

/-- `BookCleaner.save_data_into_json`: `self.cleaned_data.to_json(filename,
orient="records")`, an `AttributeError` when `cleaned_data` is `None`. -/
def BookCleaner.save_data_into_json (c : BookCleaner) :
    Except PyExn (List (List (String × Cell))) :=
  match c.cleaned_data with
  | none => Except.error (PyExn.attributeError "NoneType object has no attribute to_json")
  | some df => Except.ok df.to_json

/-- A JSON value, for the decoded body of the HTTP response. -/
inductive Json where
  | null
  | str (s : String)
  | num (n : Int)
  | bool (b : Bool)
  | arr (xs : List Json)
  | obj (kvs : List (String × Json))

/-- The outcome of `requests.get` + `raise_for_status` on the configured URL:
a transport failure (`requests.get` raises a `RequestException`), an HTTP
error status (`raise_for_status` raises an `HTTPError`, a `RequestException`),
or a successful response with a decoded JSON body. -/
inductive FetchOutcome where
  | transportError (msg : String)
  | httpStatusError (code : Nat)
  | ok (body : Json)

/-- The `try` block of `BookFetcher.extract_books` (src/librarydata.py lines
19-23) before the `except` clause: failed requests raise `RequestException`;
on success `data.get("docs", [])` reads the `docs` key of the body — an
`AttributeError` when the decoded body is not a JSON object/dict. -/
def extract_books_try (outcome : FetchOutcome) : Except PyExn Json :=
  match outcome with
  | FetchOutcome.transportError m => Except.error (PyExn.requestException m)
  | FetchOutcome.httpStatusError c =>
      Except.error (PyExn.requestException ("HTTP error " ++ toString c))
  | FetchOutcome.ok body =>
      match body with
      | Json.obj kvs => Except.ok ((kvs.lookup "docs").getD (Json.arr []))
      | _ => Except.error (PyExn.attributeError "object has no attribute get")

/-- `BookFetcher.extract_books` (src/librarydata.py lines 18-26): the `try`
block with `except requests.RequestException`, which prints the error and
returns `[]`. -/
def extract_books (outcome : FetchOutcome) : Except PyExn Json :=
  match extract_books_try outcome with
  | Except.error (PyExn.requestException _) => Except.ok (Json.arr [])
  | r => r

/-- A SQLAlchemy engine, as produced by `create_engine`. -/
structure Engine where
  url : String
  deriving DecidableEq, Repr

/-- `sqlalchemy.create_engine`: wraps the connection URL. -/
def create_engine (url : String) : Engine := { url := url }

/-- `BookDatabase` (src/librarydata.py lines 58-75): connection URL, engine,
and the dataframe handed over at construction. -/
structure BookDatabase where
  conn_url : String
  engine : Engine
  df : DataFrame
  deriving DecidableEq, Repr

/-- `BookDatabase.__init__`: reads `DB_CONN_URL` from the environment and
raises `ValueError` when `not self.conn_url` — i.e. when the variable is
unset (`None`) or set to the empty string, both falsy in Python; otherwise
creates the engine and stores the dataframe. -/
def BookDatabase.init (env : String → Option String) (df : DataFrame) :
    Except PyExn BookDatabase :=
  match env "DB_CONN_URL" with
  | none => Except.error (PyExn.valueError "No connection URL found in environment variables")
  | some url =>
      if url = "" then
        Except.error (PyExn.valueError "No connection URL found in environment variables")
      else
        Except.ok { conn_url := url, engine := create_engine url, df := df }

/-- The state of the relational database: the table stored under each name. -/
def DbState : Type := String → Option DataFrame

/-- `DataFrame.to_sql(name, engine, if_exists="replace", index=False)`:
drops any existing table of that name and writes the dataframe's contents in
its place. -/
def to_sql_replace (df : DataFrame) (name : String) (s : DbState) : DbState :=
  fun t => if t = name then some df else s t

/-- `BookDatabase.dataframe_to_db` (src/librarydata.py lines 66-68): replaces
the `LibBooks` table with the stored dataframe. -/
def BookDatabase.dataframe_to_db (db : BookDatabase) (s : DbState) : DbState :=
  to_sql_replace db.df "LibBooks" s

/-- `df.head()`: the first five rows. -/
def DataFrame.head (df : DataFrame) : DataFrame :=
  { columns := df.columns, rows := df.rows.take 5 }

/-- What `pd.read_sql` does for a given query against a given engine: either
a result dataframe or a raised exception message.  Passed in explicitly since
the database is external. -/
inductive SqlOutcome where
  | ok (res : DataFrame)
  | raise (msg : String)

/-- Console output of `BookDatabase.query`: the printed head of the result
frame, or the printed error message. -/
inductive QueryOutput where
  | printedHead (df : DataFrame)
  | printedError (msg : String)
  deriving DecidableEq, Repr

/-- `BookDatabase.query` (src/librarydata.py lines 70-75): runs `pd.read_sql`
inside `try`, printing `df_from_db.head()` on success; `except Exception`
prints the error.  The method never raises and never touches `self.df`; the
returned pair is the (unchanged) object and what was printed. -/
def BookDatabase.query (db : BookDatabase) (q : String)
    (read_sql : String → Engine → SqlOutcome) :
    Except PyExn (BookDatabase × QueryOutput) :=
  match read_sql q db.engine with
  | SqlOutcome.ok res => Except.ok (db, QueryOutput.printedHead res.head)
  | SqlOutcome.raise m =>
      Except.ok (db, QueryOutput.printedError ("Error querying the database: " ++ m))

/-- Select a named column of a dataframe: the cell at the column's position in
every row, or `none` when no column has that name (the failure mode of
`sns.countplot(data=df, x=name)` on a missing column). -/
def DataFrame.col? (df : DataFrame) (name : String) : Option (List Cell) :=
  match df.columns.findIdx? (fun c => c == name) with
  | some j => some (df.rows.map (fun r => r.getD j Cell.nan))
  | none => none

/-- The distinct values of a list in order of first appearance — the
categories `sns.countplot` builds for a column. -/
def uniqueValues (l : List Cell) : List Cell :=
  l.foldl addDistinct []

/-- The bars of `sns.countplot(data=df, x=x)` as drawn by
`BookVisualizer.plot_publish_year_count` (src/librarydata.py lines 83-99):
one bar per distinct value of the `x` column, whose height is the number of
rows carrying that value; an error when the column is missing. -/
def countplotBars (df : DataFrame) (x : String) :
    Except PyExn (List (Cell × Nat)) :=
  match df.col? x with
  | none => Except.error (PyExn.valueError ("Could not interpret value for x: " ++ x))
  | some col => Except.ok ((uniqueValues col).map (fun v => (v, col.count v)))

lemma flattenRecord_row (item : RawRecord) :
    fourCols.map (fun c => (((flattenRecord item).lookup c).getD Cell.nan)) =
      [item.title.getD (Cell.s ""),
       Cell.s (String.intercalate ", " (item.author_name.getD [])),
       item.first_publish_year.getD (Cell.s ""),
       item.ratings_sortable.getD (Cell.s "")] := rfl

/-- A concrete raw record: the scenario input of §8 of the spec. -/
def rawEx1 : RawRecord :=
  { title := some (Cell.s "T1"), author_name := some ["X"],
    first_publish_year := some (Cell.i 2001), ratings_sortable := some (Cell.i 5) }

/-- A concrete raw record with a two-author list. -/
def rawEx2 : RawRecord :=
  { title := none, author_name := some ["A", "B"],
    first_publish_year := none, ratings_sortable := none }

/-- C1: for every sequence of raw records, `clean_data` produces exactly one
cleaned row per raw record at the same ordinal position; in each row the
title, joined author list, first-publish-year and ratings values of the raw
record are carried through (`Option.getD`: present fields unchanged, a missing
title, year or ratings becomes the empty string, a missing author list joins
to the empty string). -/
theorem clean_data_row_per_record (data : List RawRecord) :
    (clean_data data).rows.length = data.length ∧
    ∀ i (h : i < data.length),
      (clean_data data).rows[i]? = some
        [(data.get ⟨i, h⟩).title.getD (Cell.s ""),
         Cell.s (String.intercalate ", " ((data.get ⟨i, h⟩).author_name.getD [])),
         (data.get ⟨i, h⟩).first_publish_year.getD (Cell.s ""),
         (data.get ⟨i, h⟩).ratings_sortable.getD (Cell.s "")] := by
  constructor
  · simp [clean_data, DataFrame.ofRecords]
  · intro i h
    cases data with
    | nil => simp at h
    | cons d ds =>
      unfold clean_data DataFrame.ofRecords
      rw [collectCols_flatten_cons]
      simp only [List.getElem?_map]
      rw [List.getElem?_eq_getElem h]
      simp [flattenRecord_row, List.get_eq_getElem]

/-- Witness for C1 at the spec's §8 scenario input. -/
theorem clean_data_row_per_record_witness :
    0 < [rawEx1].length ∧
    (clean_data [rawEx1]).rows[0]? =
      some [Cell.s "T1", Cell.s "X", Cell.i 2001, Cell.i 5] :=
  ⟨by decide, (clean_data_row_per_record [rawEx1]).2 0 (by decide)⟩

/-- C2: in the flattened row of a raw record, the cleaned `author_name` value
is the raw string list joined with the separator `", "`; in particular
`["A", "B"]` yields `"A, B"`, and an empty list or an absent `author_name`
field both yield the empty string. -/
theorem clean_data_author_join :
    (∀ (item : RawRecord) (l : List String), item.author_name = some l →
        (flattenRecord item).lookup "author_name" =
          some (Cell.s (String.intercalate ", " l))) ∧
    (∀ item : RawRecord, item.author_name = some ["A", "B"] →
        (flattenRecord item).lookup "author_name" = some (Cell.s "A, B")) ∧
    (∀ item : RawRecord, item.author_name = some [] →
        (flattenRecord item).lookup "author_name" = some (Cell.s "")) ∧
    (∀ item : RawRecord, item.author_name = none →
        (flattenRecord item).lookup "author_name" = some (Cell.s "")) := by
  refine ⟨?_, ?_, ?_, ?_⟩
  · intro item l hl
    simp only [flattenRecord, List.lookup, hl]
    rfl
  · intro item hl
    simp only [flattenRecord, List.lookup, hl]
    rfl
  · intro item hl
    simp only [flattenRecord, List.lookup, hl]
    rfl
  · intro item hl
    simp only [flattenRecord, List.lookup, hl]
    rfl

/-- Witness for C2 at a record with authors `["A", "B"]`. -/
theorem clean_data_author_join_witness :
    (flattenRecord rawEx2).lookup "author_name" = some (Cell.s "A, B") :=
  clean_data_author_join.2.1 rawEx2 rfl

/-- C3: `extract_books` never lets a `RequestException` (transport or
HTTP-status error) escape: on either kind of error it returns the empty
`docs` list, and on a successful response with a JSON-object body it returns
the value under the `docs` key, or the empty list when that key is absent. -/
theorem extract_books_error_handling :
    (∀ (o : FetchOutcome) (m : String),
        extract_books o ≠ Except.error (PyExn.requestException m)) ∧
    (∀ m, extract_books (FetchOutcome.transportError m) = Except.ok (Json.arr [])) ∧
    (∀ c, extract_books (FetchOutcome.httpStatusError c) = Except.ok (Json.arr [])) ∧
    (∀ (kvs : List (String × Json)) (v : Json), kvs.lookup "docs" = some v →
        extract_books (FetchOutcome.ok (Json.obj kvs)) = Except.ok v) ∧
    (∀ kvs : List (String × Json), kvs.lookup "docs" = none →
        extract_books (FetchOutcome.ok (Json.obj kvs)) = Except.ok (Json.arr [])) := by
  refine ⟨?_, ?_, ?_, ?_, ?_⟩
  · intro o m
    cases o with
    | transportError m' => simp [extract_books, extract_books_try]
    | httpStatusError c => simp [extract_books, extract_books_try]
    | ok body => cases body <;> simp [extract_books, extract_books_try]
  · intro m; rfl
  · intro c; rfl
  · intro kvs v hv
    simp [extract_books, extract_books_try, hv]
  · intro kvs hv
    simp [extract_books, extract_books_try, hv]

/-- Witness for C3 at a body whose `docs` key holds a one-element array. -/
theorem extract_books_error_handling_witness :
    extract_books (FetchOutcome.ok (Json.obj [("docs", Json.arr [Json.str "b"])])) =
      Except.ok (Json.arr [Json.str "b"]) :=
  extract_books_error_handling.2.2.2.1 [("docs", Json.arr [Json.str "b"])]
    (Json.arr [Json.str "b"]) rfl

/-- C4: constructing `BookDatabase` raises `ValueError` exactly when the
`DB_CONN_URL` environment variable is unset or empty; when it holds a
non-empty URL, construction succeeds and stores that URL's engine and the
given dataframe. -/
theorem bookDatabase_init_config_error (env : String → Option String) (df : DataFrame) :
    ((∃ e, BookDatabase.init env df = Except.error e) ↔
      (env "DB_CONN_URL" = none ∨ env "DB_CONN_URL" = some "")) ∧
    (∀ u, env "DB_CONN_URL" = some u → u ≠ "" →
      BookDatabase.init env df =
        Except.ok { conn_url := u, engine := create_engine u, df := df }) := by
  constructor
  · cases henv : env "DB_CONN_URL" with
    | none =>
      unfold BookDatabase.init
      rw [henv]
      simp
    | some u =>
      unfold BookDatabase.init
      rw [henv]
      by_cases hu : u = ""
      · subst hu; simp
      · simp [hu]
  · intro u hu hne
    unfold BookDatabase.init
    rw [hu]
    simp [hne]

/-- A concrete environment holding a non-empty connection URL. -/
def envEx : String → Option String :=
  fun v => if v = "DB_CONN_URL" then some "sqlite:///x.db" else none

/-- Witness for C4 at an environment with a non-empty `DB_CONN_URL`. -/
theorem bookDatabase_init_config_error_witness :
    BookDatabase.init envEx (clean_data []) =
      Except.ok { conn_url := "sqlite:///x.db", engine := create_engine "sqlite:///x.db",
                  df := clean_data [] } :=
  (bookDatabase_init_config_error envEx (clean_data [])).2 "sqlite:///x.db" rfl (by decide)

/-- C5: for every query text and every behavior of the external `read_sql`
call, `BookDatabase.query` returns normally (never propagates an exception):
on success it prints the head (first five rows) of the result, on a raised
execution error it prints the error message, and in both cases the stored
object — hence its dataframe — is returned unchanged. -/
theorem bookDatabase_query_no_propagation (db : BookDatabase) (q : String)
    (read_sql : String → Engine → SqlOutcome) :
    ∃ out, BookDatabase.query db q read_sql = Except.ok (db, out) ∧
      (∀ res, read_sql q db.engine = SqlOutcome.ok res →
        out = QueryOutput.printedHead res.head) ∧
      (∀ m, read_sql q db.engine = SqlOutcome.raise m →
        out = QueryOutput.printedError ("Error querying the database: " ++ m)) := by
  cases hr : read_sql q db.engine with
  | ok res =>
    refine ⟨QueryOutput.printedHead res.head, ?_, ?_, ?_⟩
    · unfold BookDatabase.query
      rw [hr]
    · intro res2 h2
      cases h2
      rfl
    · intro m h2
      cases h2
  | raise m =>
    refine ⟨QueryOutput.printedError ("Error querying the database: " ++ m), ?_, ?_, ?_⟩
    · unfold BookDatabase.query
      rw [hr]
    · intro res2 h2
      cases h2
    · intro m2 h2
      cases h2
      rfl

/-- A concrete database sink object. -/
def dbEx : BookDatabase :=
  { conn_url := "sqlite:///x.db", engine := create_engine "sqlite:///x.db",
    df := clean_data [rawEx1] }

/-- Witness for C5: a `read_sql` that always raises still yields a normal
return with the object unchanged and the error printed. -/
theorem bookDatabase_query_no_propagation_witness :
    BookDatabase.query dbEx "SELECT * FROM LibBooks" (fun _ _ => SqlOutcome.raise "boom") =
      Except.ok (dbEx, QueryOutput.printedError "Error querying the database: boom") := by
  obtain ⟨out, hq, -, herr⟩ :=
    bookDatabase_query_no_propagation dbEx "SELECT * FROM LibBooks"
      (fun _ _ => SqlOutcome.raise "boom")
  rw [herr "boom" rfl] at hq
  exact hq

/-- C6: writing the destination table is idempotent — replacing `LibBooks`
twice with the same dataframe leaves exactly the database state of a single
write, and after a write the table holds precisely the written dataframe
(same rows and contents, replace rather than append). -/
theorem dataframe_to_db_idempotent (db : BookDatabase) (s : DbState) :
    db.dataframe_to_db (db.dataframe_to_db s) = db.dataframe_to_db s ∧
    db.dataframe_to_db s "LibBooks" = some db.df := by
  constructor
  · funext t
    by_cases ht : t = "LibBooks"
    · simp [BookDatabase.dataframe_to_db, to_sql_replace, ht]
    · simp [BookDatabase.dataframe_to_db, to_sql_replace, ht]
  · simp [BookDatabase.dataframe_to_db, to_sql_replace]

lemma clean_data_rows_length_four (d : RawRecord) (ds : List RawRecord) :
    ∀ r ∈ (clean_data (d :: ds)).rows, r.length = 4 := by
  intro r hr
  unfold clean_data DataFrame.ofRecords at hr
  rw [collectCols_flatten_cons] at hr
  simp only [List.mem_map] at hr
  obtain ⟨rec, -, rfl⟩ := hr
  rfl

/-- C7 counterexample: the empty raw-record sequence yields a dataframe with
no columns; its CSV form is a single blank record, which `read_csv` rejects
with `EmptyDataError` instead of yielding a frame of equal row count and
column set. -/
theorem csv_roundtrip_empty_counterexample :
    read_csv (clean_data []).to_csv =
      Except.error (PyExn.emptyDataError "No columns to parse from file") := rfl

/-- C7 (amended): for every dataframe produced by `clean_data` from a
NON-EMPTY raw-record sequence, writing it to CSV without a row-index column
and reading the file back succeeds and yields a frame with the same row count
and the same column list (cell types may widen under `parseCsvCell`). -/
theorem csv_roundtrip_nonempty (data : List RawRecord) (hne : data ≠ []) :
    ∃ df', read_csv (clean_data data).to_csv = Except.ok df' ∧
      df'.columns = (clean_data data).columns ∧
      df'.rows.length = (clean_data data).rows.length := by
  obtain ⟨d, ds, rfl⟩ := List.exists_cons_of_ne_nil hne
  have hfilter :
      ((clean_data (d :: ds)).to_csv).filter (fun r => decide (r ≠ [] ∧ r ≠ [""])) =
        (clean_data (d :: ds)).to_csv := by
    rw [List.filter_eq_self]
    intro a ha
    rw [DataFrame.to_csv, List.mem_cons] at ha
    rcases ha with h1 | h2
    · subst h1
      rw [clean_data_columns_cons]
      decide
    · simp only [List.mem_map] at h2
      obtain ⟨r, hr, rfl⟩ := h2
      have hlen : (r.map Cell.csvText).length = 4 := by
        rw [List.length_map]
        exact clean_data_rows_length_four d ds r hr
      simp only [decide_eq_true_eq]
      constructor
      · intro he; rw [he] at hlen; exact absurd hlen (by decide)
      · intro he; rw [he] at hlen; exact absurd hlen (by decide)
  refine ⟨{ columns := (clean_data (d :: ds)).columns,
            rows := ((clean_data (d :: ds)).rows.map (fun r => r.map Cell.csvText)).map
              (fun r => r.map parseCsvCell) }, ?_, rfl, by simp⟩
  unfold read_csv
  rw [hfilter]
  rfl

/-- Witness for C7's amended round-trip at a one-record input. -/
theorem csv_roundtrip_nonempty_witness :
    ([rawEx1] : List RawRecord) ≠ [] ∧
    ∃ df', read_csv (clean_data [rawEx1]).to_csv = Except.ok df' ∧
      df'.columns = (clean_data [rawEx1]).columns ∧
      df'.rows.length = (clean_data [rawEx1]).rows.length :=
  ⟨by simp, csv_roundtrip_nonempty [rawEx1] (by simp)⟩

/-- C8: calling either export on a freshly constructed cleaner (before
`clean_data` has run) hits the `None` stored structure and is an
`AttributeError`; after `clean_data` has been called the stored structure is
non-null and both exports return the serialized structure without that
error. -/
theorem exports_require_clean :
    (∀ data : List RawRecord,
        (BookCleaner.init data).save_data_into_csv =
          Except.error (PyExn.attributeError "NoneType object has no attribute to_csv") ∧
        (BookCleaner.init data).save_data_into_json =
          Except.error (PyExn.attributeError "NoneType object has no attribute to_json")) ∧
    (∀ c : BookCleaner, ∃ df,
        (c.clean_data).1.cleaned_data = some df ∧
        (c.clean_data).1.save_data_into_csv = Except.ok df.to_csv ∧
        (c.clean_data).1.save_data_into_json = Except.ok df.to_json) := by
  constructor
  · intro data
    exact ⟨rfl, rfl⟩
  · intro c
    exact ⟨DataFrame.ofRecords (c.data.map flattenRecord), rfl, rfl, rfl⟩

lemma uniqueValues_mem (col : List Cell) (v : Cell) :
    v ∈ uniqueValues col ↔ v ∈ col := by
  unfold uniqueValues
  rw [foldl_addDistinct_mem]
  simp

lemma uniqueValues_nodup (col : List Cell) : (uniqueValues col).Nodup :=
  foldl_addDistinct_nodup col [] List.nodup_nil

/-- Raw record with first publish year 2001 (first copy). -/
def rawY2001a : RawRecord :=
  { title := some (Cell.s "B1"), author_name := some ["X"],
    first_publish_year := some (Cell.i 2001), ratings_sortable := some (Cell.i 1) }

/-- Raw record with first publish year 2001 (second copy). -/
def rawY2001b : RawRecord :=
  { title := some (Cell.s "B2"), author_name := some ["Y"],
    first_publish_year := some (Cell.i 2001), ratings_sortable := some (Cell.i 2) }

/-- Raw record with first publish year 2002. -/
def rawY2002 : RawRecord :=
  { title := some (Cell.s "B3"), author_name := some ["Z"],
    first_publish_year := some (Cell.i 2002), ratings_sortable := some (Cell.i 3) }

/-- C9: the visualizer's aggregation groups the rows by the
`first_publish_year` column and counts occurrences per distinct value — the
bars carry pairwise-distinct category values, the categories are exactly the
values occurring in the column, and each bar's height is that value's row
count; for cleaned rows with years `[2001, 2001, 2002]` it produces exactly
the two categories 2001 and 2002 with counts 2 and 1. -/
theorem countplot_groups_and_counts :
    (∀ (df : DataFrame) (col : List Cell), df.col? "first_publish_year" = some col →
      ∃ bars, countplotBars df "first_publish_year" = Except.ok bars ∧
        (bars.map Prod.fst).Nodup ∧
        (∀ v, v ∈ bars.map Prod.fst ↔ v ∈ col) ∧
        (∀ b ∈ bars, b.2 = col.count b.1)) ∧
    countplotBars (clean_data [rawY2001a, rawY2001b, rawY2002]) "first_publish_year" =
      Except.ok [(Cell.i 2001, 2), (Cell.i 2002, 1)] := by
  constructor
  · intro df col hcol
    refine ⟨(uniqueValues col).map (fun v => (v, col.count v)), ?_, ?_, ?_, ?_⟩
    · unfold countplotBars
      rw [hcol]
    · rw [List.map_map]
      have : (Prod.fst ∘ fun v => (v, col.count v)) = id := rfl
      rw [this, List.map_id]
      exact uniqueValues_nodup col
    · intro v
      rw [List.map_map]
      have : (Prod.fst ∘ fun v => (v, col.count v)) = id := rfl
      rw [this, List.map_id]
      exact uniqueValues_mem col v
    · intro b hb
      simp only [List.mem_map] at hb
      obtain ⟨v, -, rfl⟩ := hb
      rfl
  · rfl

/-- Witness for C9: the three-row scenario frame has a `first_publish_year`
column, and the general grouping statement applies to it. -/
theorem countplot_groups_and_counts_witness :
    (clean_data [rawY2001a, rawY2001b, rawY2002]).col? "first_publish_year" =
      some [Cell.i 2001, Cell.i 2001, Cell.i 2002] ∧
    ∃ bars, countplotBars (clean_data [rawY2001a, rawY2001b, rawY2002])
        "first_publish_year" = Except.ok bars ∧
      (bars.map Prod.fst).Nodup ∧
      (∀ v, v ∈ bars.map Prod.fst ↔ v ∈ [Cell.i 2001, Cell.i 2001, Cell.i 2002]) ∧
      (∀ b ∈ bars, b.2 = List.count b.1 [Cell.i 2001, Cell.i 2001, Cell.i 2002]) :=
  ⟨rfl, countplot_groups_and_counts.1 (clean_data [rawY2001a, rawY2001b, rawY2002])
    [Cell.i 2001, Cell.i 2001, Cell.i 2002] rfl⟩

/-- C10: on the empty raw-record sequence `clean_data` yields a frame with no
rows and an empty column list (the four named columns are absent), whereas on
every non-empty input it has exactly the four columns; selecting the
`first_publish_year` column therefore fails (`none`) on the empty-input frame
and succeeds on every non-empty-input frame. -/
theorem clean_data_empty_vs_nonempty :
    (clean_data []).columns = [] ∧
    (clean_data []).rows = [] ∧
    (∀ data : List RawRecord, data ≠ [] → (clean_data data).columns = fourCols) ∧
    (clean_data []).col? "first_publish_year" = none ∧
    (∀ data : List RawRecord, data ≠ [] →
      (clean_data data).col? "first_publish_year" =
        some ((clean_data data).rows.map (fun r => r.getD 2 Cell.nan))) := by
  refine ⟨rfl, rfl, ?_, rfl, ?_⟩
  · intro data hne
    obtain ⟨d, ds, rfl⟩ := List.exists_cons_of_ne_nil hne
    exact clean_data_columns_cons d ds
  · intro data hne
    obtain ⟨d, ds, rfl⟩ := List.exists_cons_of_ne_nil hne
    unfold DataFrame.col?
    rw [clean_data_columns_cons]
    rfl

/-- Witness for C10 at a one-record input. -/
theorem clean_data_empty_vs_nonempty_witness :
    ([rawEx1] : List RawRecord) ≠ [] ∧
    (clean_data [rawEx1]).columns = fourCols ∧
    (clean_data [rawEx1]).col? "first_publish_year" =
      some ((clean_data [rawEx1]).rows.map (fun r => r.getD 2 Cell.nan)) :=
  ⟨by simp, clean_data_empty_vs_nonempty.2.2.1 [rawEx1] (by simp),
    clean_data_empty_vs_nonempty.2.2.2.2 [rawEx1] (by simp)⟩
